import Mathlib

/-!
Shallow embedding of `src/azure_openai_client.py` (class `AzureOpenAIClient`,
helpers `create_client_from_env` / `create_client_from_dict`) together with the
observable behaviour of the library calls it delegates to
(`ChatPromptTemplate` / `HumanMessagePromptTemplate` f-string templating and
`str.strip`).

Modelling conventions:
* A Python `Dict[str, str]` of secrets is an association list `Secrets`;
  `dict.get(k)` is `Secrets.get`, `dict.get(k, d)` is `Secrets.getD`.
  A key present with value `None` (possible only via `os.getenv` for the four
  required keys) is modelled as an absent key: every read in the source treats
  the two identically (`not secrets.get(k)` is true for both, and the
  defaulted reads are only ever reached for keys that are never `None`).
* The outbound LLM transport is a parameter
  `send : AzureChatOpenAIConfig → List ChatMessage → String` producing the raw
  completion body; the wrapper's result is that body `strip`ped.
* `{name}`-style templating is modelled by a character-level scanner with the
  semantics of Python `str.format` as used by LangChain f-string prompts:
  `{{` / `}}` are brace escapes, `{name}` substitutes, a placeholder whose
  name is not in the vars mapping is a missing-variable error (LangChain
  raises `KeyError` listing the missing input vars before formatting),
  and stray/unclosed braces are a malformed-template error. Conversion and
  format-spec syntax (`{a!r}`, `{a:>10}`) is not modelled; no claim uses it.
* Python `float` literals `0.1` is modelled as the exact rational `1/10`.
-/

deriving instance DecidableEq for Except

/-- Errors surfaced by the wrapper: `ValueError` from `_validate_secrets`,
the missing-input-vars `KeyError` raised by `ChatPromptTemplate.invoke`,
and the `ValueError` raised by f-string template parsing on stray braces. -/
inductive PyError where
  | valueError (msg : String)
  | missingVariables (names : List String)
  | malformedTemplate
deriving DecidableEq, Repr

/-- The secrets dictionary: an association list from key to value. -/
abbrev Secrets := List (String × String)

/-- `self.secrets.get(key)` — first binding wins, `none` when absent. -/
def Secrets.get (s : Secrets) (k : String) : Option String :=
  (s.find? (fun p => p.1 == k)).map (·.2)

/-- `self.secrets.get(key, default)`. -/
def Secrets.getD (s : Secrets) (k d : String) : String :=
  match s.get k with
  | some v => v
  | none => d

/-- `not self.secrets.get(key)`: the key is absent or maps to a falsy
(empty) string. -/
def Secrets.blankAt (s : Secrets) (k : String) : Bool :=
  match s.get k with
  | some v => v == ""
  | none => true

/-- The `required_keys` list of `_validate_secrets`, in source order. -/
def requiredKeys : List String :=
  ["azure_tenant_id", "azure_client_id", "azure_client_secret", "azure_endpoint"]

/-- `missing_keys = [key for key in required_keys if not self.secrets.get(key)]`. -/
def missingKeys (s : Secrets) : List String :=
  requiredKeys.filter (fun k => s.blankAt k)

/-- Python `repr` of a list of plain identifier strings, as interpolated by
the f-string `f"Missing required secrets: {missing_keys}"`. -/
def pyReprStrList (l : List String) : String :=
  let q := String.singleton (Char.ofNat 39)
  "[" ++ String.intercalate ", " (l.map (fun s => q ++ s ++ q)) ++ "]"

/-- `azure.identity.ClientSecretCredential` as configured by
`_setup_azure_credentials`. -/
structure ClientSecretCredential where
  tenant_id : String
  client_id : String
  client_secret : String
deriving DecidableEq, Repr

/-- The `AzureChatOpenAI` configuration built by
`_initialize_langchain_client`. -/
structure AzureChatOpenAIConfig where
  azure_endpoint : String
  azure_deployment : String
  api_version : String
  temperature : ℚ
  max_tokens : Nat
deriving DecidableEq, Repr

/-- The client object: `self.secrets`, `self.credential`, `self.llm`. -/
structure AzureOpenAIClient where
  secrets : Secrets
  credential : ClientSecretCredential
  llm : AzureChatOpenAIConfig
deriving DecidableEq, Repr

/-- `AzureOpenAIClient.__init__`: `_validate_secrets` (raising `ValueError`
listing every blank required key), then `_setup_azure_credentials` and
`_initialize_langchain_client` with the two `.get(key, default)` fallbacks
and the fixed `temperature=0.1`, `max_tokens=4000`: the object state
assembled by a successful `__init__` is `constructedClient`. -/
def constructedClient (secrets : Secrets) : AzureOpenAIClient :=
  { secrets := secrets
    credential :=
      { tenant_id := (secrets.get "azure_tenant_id").getD ""
        client_id := (secrets.get "azure_client_id").getD ""
        client_secret := (secrets.get "azure_client_secret").getD "" }
    llm :=
      { azure_endpoint := (secrets.get "azure_endpoint").getD ""
        azure_deployment := secrets.getD "azure_deployment_name" "gpt-4"
        api_version := secrets.getD "azure_api_version" "2024-02-15-preview"
        temperature := 1/10
        max_tokens := 4000 } }

/-- `AzureOpenAIClient(secrets)`: validate, then build the object. -/
def AzureOpenAIClient.construct (secrets : Secrets) : Except PyError AzureOpenAIClient :=
  if (missingKeys secrets).isEmpty then
    .ok (constructedClient secrets)
  else
    .error (.valueError ("Missing required secrets: " ++ pyReprStrList (missingKeys secrets)))

/-- `create_client_from_dict`. -/
def create_client_from_dict (secrets : Secrets) : Except PyError AzureOpenAIClient :=
  AzureOpenAIClient.construct secrets

/-- A binding for `k` when the environment variable is set, nothing when it
is unset (`os.getenv` returning `None` stored in the dict behaves identically
to an absent key at every read in the source). -/
def optPair (k : String) (v : Option String) : Secrets :=
  match v with
  | some s => [(k, s)]
  | none => []

/-- The secrets dict built by `create_client_from_env` from `os.getenv`. -/
def envSecrets (env : String → Option String) : Secrets :=
  optPair "azure_tenant_id" (env "AZURE_TENANT_ID") ++
  optPair "azure_client_id" (env "AZURE_CLIENT_ID") ++
  optPair "azure_client_secret" (env "AZURE_CLIENT_SECRET") ++
  optPair "azure_endpoint" (env "AZURE_ENDPOINT") ++
  [("azure_deployment_name", (env "AZURE_DEPLOYMENT_NAME").getD "gpt-4"),
   ("azure_api_version", (env "AZURE_API_VERSION").getD "2024-02-15-preview")]

/-- `create_client_from_env`, parameterised by the process environment. -/
def create_client_from_env (env : String → Option String) : Except PyError AzureOpenAIClient :=
  AzureOpenAIClient.construct (envSecrets env)

/-! ## Message building and f-string templating -/

/-- Message roles used by the wrapper. -/
inductive Role where
  | system
  | user
deriving DecidableEq, Repr

/-- A role-tagged message of the outbound request. -/
structure ChatMessage where
  role : Role
  content : String
deriving DecidableEq, Repr

/-- The `messages = []; if system_message: messages.append(SystemMessage(...))`
head of both `chat` and `chat_with_template`: the system entry is added only
for a truthy (non-empty, non-`None`) `system_message`. -/
def sysPart (system_message : Option String) : List ChatMessage :=
  match system_message with
  | some s => if s == "" then [] else [⟨Role.system, s⟩]
  | none => []

/-- `vars.get(name)` lookup used during substitution. -/
def lookupVar (v : List (String × String)) (n : String) : Option String :=
  (v.find? (fun p => p.1 == n)).map (·.2)

/-- Scanner state for f-string parsing: in literal text, just after `{`,
inside a placeholder name (accumulated reversed), or just after `}`. -/
inductive FmtMode where
  | lit
  | open0
  | name (acc : List Char)
  | close0
deriving DecidableEq, Repr

/-- The input vars of an f-string template, in order of appearance, as
computed by LangChain's `get_template_variables` / `Formatter().parse`:
`none` on a malformed template (stray `}` or unclosed `{`). -/
def tvScan : List Char → FmtMode → Option (List String)
  | [], .lit => some []
  | [], .open0 => none
  | [], .name _ => none
  | [], .close0 => none
  | ch :: rest, .lit =>
    if ch = '\x7b' then tvScan rest .open0
    else if ch = '\x7d' then tvScan rest .close0
    else tvScan rest .lit
  | ch :: rest, .open0 =>
    if ch = '\x7b' then tvScan rest .lit
    else if ch = '\x7d' then (tvScan rest .lit).map (String.mk [] :: ·)
    else tvScan rest (.name [ch])
  | ch :: rest, .name acc =>
    if ch = '\x7d' then (tvScan rest .lit).map (String.mk acc.reverse :: ·)
    else if ch = '\x7b' then none
    else tvScan rest (.name (ch :: acc))
  | ch :: rest, .close0 =>
    if ch = '\x7d' then tvScan rest .lit
    else none

/-- Python `str.format` substitution on the template characters: `{{`/`}}`
unescape to a single brace, `{name}` is replaced by the mapped value, a
missing mapping entry or a stray brace is an error. -/
def fmtScan : List Char → FmtMode → List (String × String) → Except PyError (List Char)
  | [], .lit, _ => .ok []
  | [], .open0, _ => .error .malformedTemplate
  | [], .name _, _ => .error .malformedTemplate
  | [], .close0, _ => .error .malformedTemplate
  | ch :: rest, .lit, v =>
    if ch = '\x7b' then fmtScan rest .open0 v
    else if ch = '\x7d' then fmtScan rest .close0 v
    else (fmtScan rest .lit v).map (ch :: ·)
  | ch :: rest, .open0, v =>
    if ch = '\x7b' then (fmtScan rest .lit v).map ('\x7b' :: ·)
    else if ch = '\x7d' then
      match lookupVar v (String.mk []) with
      | some val => (fmtScan rest .lit v).map (val.data ++ ·)
      | none => .error (.missingVariables [String.mk []])
    else fmtScan rest (.name [ch]) v
  | ch :: rest, .name acc, v =>
    if ch = '\x7d' then
      match lookupVar v (String.mk acc.reverse) with
      | some val => (fmtScan rest .lit v).map (val.data ++ ·)
      | none => .error (.missingVariables [String.mk acc.reverse])
    else if ch = '\x7b' then .error .malformedTemplate
    else fmtScan rest (.name (ch :: acc)) v
  | ch :: rest, .close0, v =>
    if ch = '\x7d' then (fmtScan rest .lit v).map ('\x7d' :: ·)
    else .error .malformedTemplate

/-- `get_template_variables(template)` on a whole string. -/
def templateVariables (t : String) : Option (List String) :=
  tvScan t.data .lit

/-- `template.format(**vars)` on a whole string. -/
def formatString (t : String) (v : List (String × String)) : Except PyError String :=
  (fmtScan t.data .lit v).map String.mk

/-- Characters stripped by Python `str.strip()` (ASCII whitespace). -/
def isPySpace (ch : Char) : Bool :=
  ch == ' ' || ch == '\t' || ch == '\n' || ch == '\r' || ch == '\x0b' || ch == '\x0c'

/-- Python `s.strip()`: drop leading and trailing whitespace. -/
def pyStrip (s : String) : String :=
  String.mk (((s.data.dropWhile isPySpace).reverse.dropWhile isPySpace).reverse)

/-- The shared tail of `chat` / `chat_with_template`:
`ChatPromptTemplate.from_messages([...SystemMessage...,
HumanMessagePromptTemplate.from_template(template)])`, `chain = prompt | llm`,
`chain.invoke(vars)`, `response.content.strip()`.
`from_template` parses the template (raising on stray braces), `invoke`
raises `KeyError` naming every input variable missing from `vars`,
otherwise the formatted user message follows the optional system message to
the model and the completion body is returned stripped. -/
def invokeChain (send : AzureChatOpenAIConfig → List ChatMessage → String)
    (llm : AzureChatOpenAIConfig) (system_message : Option String)
    (template : String) (vars : List (String × String)) : Except PyError String :=
  match templateVariables template with
  | none => .error .malformedTemplate
  | some ns =>
    if (ns.filter (fun n => (lookupVar vars n).isNone)).isEmpty then
      match formatString template vars with
      | .ok content =>
        .ok (pyStrip (send llm (sysPart system_message ++ [⟨Role.user, content⟩])))
      | .error e => .error e
    else
      .error (.missingVariables (ns.filter (fun n => (lookupVar vars n).isNone)))

/-- `AzureOpenAIClient.chat(message, system_message)`: the user message is
passed through `HumanMessagePromptTemplate.from_template` and the chain is
invoked with `{}` as the vars mapping. -/
def AzureOpenAIClient.chat (c : AzureOpenAIClient)
    (send : AzureChatOpenAIConfig → List ChatMessage → String)
    (message : String) (system_message : Option String) : Except PyError String :=
  invokeChain send c.llm system_message message []

/-- `AzureOpenAIClient.chat_with_template(template, vars, system_message)`. -/
def AzureOpenAIClient.chat_with_template (c : AzureOpenAIClient)
    (send : AzureChatOpenAIConfig → List ChatMessage → String)
    (template : String) (vars : List (String × String))
    (system_message : Option String) : Except PyError String :=
  invokeChain send c.llm system_message template vars

/-- `chat` as a method on the object state: it reads `self` and never
assigns to any attribute. -/
def chatM (send : AzureChatOpenAIConfig → List ChatMessage → String)
    (message : String) (system_message : Option String) :
    StateM AzureOpenAIClient (Except PyError String) := do
  let c ← get
  pure (c.chat send message system_message)

/-- `chat_with_template` as a method on the object state. -/
def chatWithTemplateM (send : AzureChatOpenAIConfig → List ChatMessage → String)
    (template : String) (vars : List (String × String))
    (system_message : Option String) :
    StateM AzureOpenAIClient (Except PyError String) := do
  let c ← get
  pure (c.chat_with_template send template vars system_message)

/-- A message contains no brace characters, so f-string formatting is the
identity on it. -/
def braceFree (s : String) : Bool :=
  s.data.all (fun ch => ch != '\x7b' && ch != '\x7d')

/-- A transport returning a fixed completion body for every request. -/
def constSend (r : String) : AzureChatOpenAIConfig → List ChatMessage → String :=
  fun _ _ => r

/-! ## Concrete fixtures -/

/-- A secrets dict with the four required keys and no optional keys. -/
def testSecrets : Secrets :=
  [("azure_tenant_id", "t"), ("azure_client_id", "c"),
   ("azure_client_secret", "s"), ("azure_endpoint", "e")]

/-- The client `construct testSecrets` yields. -/
def testClient : AzureOpenAIClient :=
  { secrets := testSecrets
    credential := { tenant_id := "t", client_id := "c", client_secret := "s" }
    llm :=
      { azure_endpoint := "e"
        azure_deployment := "gpt-4"
        api_version := "2024-02-15-preview"
        temperature := 1/10
        max_tokens := 4000 } }

/-- An environment with only the four required variables set. -/
def testEnv : String → Option String := fun k =>
  if k == "AZURE_TENANT_ID" || k == "AZURE_CLIENT_ID" ||
      k == "AZURE_CLIENT_SECRET" || k == "AZURE_ENDPOINT" then some "v" else none

/-- Project the error out of a construction attempt. -/
def errorOf {ε α : Type} (x : Except ε α) : Option ε :=
  match x with
  | .error e => some e
  | .ok _ => none

/-- A returned string starting or ending in Python-strippable whitespace. -/
def hasSurroundingWS (s : String) : Bool :=
  (s.data.head?.elim false isPySpace) || (s.data.getLast?.elim false isPySpace)

/-! ## Helper lemmas -/

lemma tvScan_of_braceFree :
    ∀ l : List Char, (∀ ch ∈ l, ch ≠ '\x7b' ∧ ch ≠ '\x7d') → tvScan l .lit = some [] := by
  intro l
  induction l with
  | nil => intro _; rfl
  | cons ch rest ih =>
    intro h
    have h1 := (h ch (List.mem_cons_self ch rest)).1
    have h2 := (h ch (List.mem_cons_self ch rest)).2
    simp only [tvScan, if_neg h1, if_neg h2]
    exact ih (fun c hc => h c (List.mem_cons_of_mem _ hc))

lemma fmtScan_of_braceFree (v : List (String × String)) :
    ∀ l : List Char, (∀ ch ∈ l, ch ≠ '\x7b' ∧ ch ≠ '\x7d') → fmtScan l .lit v = .ok l := by
  intro l
  induction l with
  | nil => intro _; rfl
  | cons ch rest ih =>
    intro h
    have h1 := (h ch (List.mem_cons_self ch rest)).1
    have h2 := (h ch (List.mem_cons_self ch rest)).2
    simp only [fmtScan, if_neg h1, if_neg h2]
    rw [ih (fun c hc => h c (List.mem_cons_of_mem _ hc))]
    rfl

lemma braceFree_chars {s : String} (h : braceFree s = true) :
    ∀ ch ∈ s.data, ch ≠ '\x7b' ∧ ch ≠ '\x7d' := by
  intro ch hch
  have := (List.all_eq_true.mp h) ch hch
  constructor
  · intro he
    subst he
    simp at this
  · intro he
    subst he
    simp at this

lemma fmt_ok_of_tv (v : List (String × String)) :
    ∀ (l : List Char) (mode : FmtMode) (ns : List String),
      tvScan l mode = some ns → (∀ n ∈ ns, (lookupVar v n).isSome = true) →
      ∃ out, fmtScan l mode v = .ok out := by
  intro l
  induction l with
  | nil =>
    intro mode ns htv _
    cases mode with
    | lit => exact ⟨[], rfl⟩
    | open0 => simp [tvScan] at htv
    | name acc => simp [tvScan] at htv
    | close0 => simp [tvScan] at htv
  | cons ch rest ih =>
    intro mode ns htv hall
    cases mode with
    | lit =>
      by_cases h1 : ch = '\x7b'
      · simp only [tvScan, if_pos h1] at htv
        obtain ⟨out, hout⟩ := ih .open0 ns htv hall
        exact ⟨out, by simp only [fmtScan, if_pos h1]; exact hout⟩
      · by_cases h2 : ch = '\x7d'
        · simp only [tvScan, if_neg h1, if_pos h2] at htv
          obtain ⟨out, hout⟩ := ih .close0 ns htv hall
          exact ⟨out, by simp only [fmtScan, if_neg h1, if_pos h2]; exact hout⟩
        · simp only [tvScan, if_neg h1, if_neg h2] at htv
          obtain ⟨out, hout⟩ := ih .lit ns htv hall
          exact ⟨ch :: out, by simp only [fmtScan, if_neg h1, if_neg h2, hout]; rfl⟩
    | open0 =>
      by_cases h1 : ch = '\x7b'
      · simp only [tvScan, if_pos h1] at htv
        obtain ⟨out, hout⟩ := ih .lit ns htv hall
        exact ⟨'\x7b' :: out, by simp only [fmtScan, if_pos h1, hout]; rfl⟩
      · by_cases h2 : ch = '\x7d'
        · simp only [tvScan, if_neg h1, if_pos h2, Option.map_eq_some'] at htv
          obtain ⟨ns', hns', hns⟩ := htv
          have hlook := hall (String.mk []) (by rw [← hns]; exact List.mem_cons_self _ _)
          obtain ⟨val, hval⟩ := Option.isSome_iff_exists.mp hlook
          obtain ⟨out, hout⟩ :=
            ih .lit ns' hns' (fun n hn => hall n (by rw [← hns]; exact List.mem_cons_of_mem _ hn))
          exact ⟨val.data ++ out,
            by simp only [fmtScan, if_neg h1, if_pos h2, hval, hout]; rfl⟩
        · simp only [tvScan, if_neg h1, if_neg h2] at htv
          obtain ⟨out, hout⟩ := ih (.name [ch]) ns htv hall
          exact ⟨out, by simp only [fmtScan, if_neg h1, if_neg h2]; exact hout⟩
    | name acc =>
      by_cases h2 : ch = '\x7d'
      · simp only [tvScan, if_pos h2, Option.map_eq_some'] at htv
        obtain ⟨ns', hns', hns⟩ := htv
        have hlook := hall (String.mk acc.reverse) (by rw [← hns]; exact List.mem_cons_self _ _)
        obtain ⟨val, hval⟩ := Option.isSome_iff_exists.mp hlook
        obtain ⟨out, hout⟩ :=
          ih .lit ns' hns' (fun n hn => hall n (by rw [← hns]; exact List.mem_cons_of_mem _ hn))
        exact ⟨val.data ++ out,
          by simp only [fmtScan, if_pos h2, hval, hout]; rfl⟩
      · by_cases h1 : ch = '\x7b'
        · simp [tvScan, if_neg h2, if_pos h1] at htv
        · simp only [tvScan, if_neg h2, if_neg h1] at htv
          obtain ⟨out, hout⟩ := ih (.name (ch :: acc)) ns htv hall
          exact ⟨out, by simp only [fmtScan, if_neg h2, if_neg h1]; exact hout⟩
    | close0 =>
      by_cases h2 : ch = '\x7d'
      · simp only [tvScan, if_pos h2] at htv
        obtain ⟨out, hout⟩ := ih .lit ns htv hall
        exact ⟨'\x7d' :: out, by simp only [fmtScan, if_pos h2, hout]; rfl⟩
      · simp [tvScan, if_neg h2] at htv

lemma head_dropWhile_elim (p : Char → Bool) :
    ∀ l : List Char, ((l.dropWhile p).head?.elim false p) = false := by
  intro l
  induction l with
  | nil => rfl
  | cons ch rest ih =>
    by_cases h : p ch = true
    · simp [List.dropWhile_cons, h, ih]
    · simp [List.dropWhile_cons, h]

lemma pyStrip_no_ws (s : String) : hasSurroundingWS (pyStrip s) = false := by
  unfold hasSurroundingWS pyStrip
  set a := s.data.dropWhile isPySpace with ha
  set d := a.reverse.dropWhile isPySpace with hd
  have htail : (d.reverse.getLast?.elim false isPySpace) = false := by
    rw [List.getLast?_reverse]
    exact head_dropWhile_elim isPySpace a.reverse
  have hhead : (d.reverse.head?.elim false isPySpace) = false := by
    obtain ⟨t, ht⟩ : ∃ t, t ++ d = a.reverse := List.dropWhile_suffix (l := a.reverse) isPySpace
    have haeq : a = d.reverse ++ t.reverse := by
      have := congrArg List.reverse ht
      simpa using this.symm
    cases hrev : d.reverse with
    | nil => simp [hrev]
    | cons x xs =>
      have hheada : a.head? = some x := by
        rw [haeq, hrev]
        rfl
      have hae := head_dropWhile_elim isPySpace s.data
      rw [← ha, hheada] at hae
      simp [hrev, Option.elim]
      simpa using hae
  simp only [String.data]
  rw [hhead, htail]
  rfl

lemma Secrets.get_cons_self (k v : String) (rest : Secrets) :
    Secrets.get ((k, v) :: rest) k = some v := by
  unfold Secrets.get
  rw [List.find?_cons_of_pos _ (by simp)]
  rfl

lemma Secrets.get_cons_ne (k k' v : String) (rest : Secrets) (h : k' ≠ k) :
    Secrets.get ((k', v) :: rest) k = Secrets.get rest k := by
  unfold Secrets.get
  rw [List.find?_cons_of_neg _ (by simp [h])]

lemma Secrets.get_optPair_ne (k k' : String) (v : Option String) (rest : Secrets)
    (h : k' ≠ k) : Secrets.get (optPair k' v ++ rest) k = Secrets.get rest k := by
  cases v with
  | none => rfl
  | some s =>
    show Secrets.get ((k', s) :: rest) k = Secrets.get rest k
    exact Secrets.get_cons_ne k k' s rest h

lemma invokeChain_eq_of_tv {send : AzureChatOpenAIConfig → List ChatMessage → String}
    {llm : AzureChatOpenAIConfig} {sm : Option String} {t : String}
    {v : List (String × String)} {ns : List String}
    (hvars : templateVariables t = some ns) :
    invokeChain send llm sm t v =
      if (ns.filter (fun n => (lookupVar v n).isNone)).isEmpty then
        match formatString t v with
        | .ok content =>
          .ok (pyStrip (send llm (sysPart sm ++ [⟨Role.user, content⟩])))
        | .error e => .error e
      else
        .error (.missingVariables (ns.filter (fun n => (lookupVar v n).isNone))) := by
  unfold invokeChain
  rw [hvars]

lemma invokeChain_ok {send : AzureChatOpenAIConfig → List ChatMessage → String}
    {llm : AzureChatOpenAIConfig} {sm : Option String} {t : String}
    {v : List (String × String)} {r : String}
    (h : invokeChain send llm sm t v = .ok r) :
    ∃ content, r = pyStrip (send llm (sysPart sm ++ [⟨Role.user, content⟩])) := by
  unfold invokeChain at h
  split at h
  · exact absurd h (by simp)
  · split at h
    · split at h
      · exact ⟨_, by injection h.symm⟩
      · exact absurd h (by simp)
    · exact absurd h (by simp)

/-! ## Claim theorems -/

/-- C1 (counterexample): `chat` does apply placeholder substitution to its
message — at `m = "Hi {x}"`, `s = "S"` the call raises a missing-variable
error instead of sending the two-entry sequence with user content exactly
`"Hi {x}"`, refuting the claim as stated. -/
theorem chat_applies_template_cex :
    AzureOpenAIClient.chat testClient (constSend "RESP") "Hi {x}" (some "S") =
      .error (PyError.missingVariables ["x"]) ∧
    AzureOpenAIClient.chat testClient (constSend "RESP") "Hi {x}" (some "S") ≠
      .ok (pyStrip (constSend "RESP" testClient.llm
        [⟨Role.system, "S"⟩, ⟨Role.user, "Hi {x}"⟩])) := by
  have h1 : AzureOpenAIClient.chat testClient (constSend "RESP") "Hi {x}" (some "S") =
      .error (PyError.missingVariables ["x"]) := by rfl
  refine ⟨h1, ?_⟩
  intro hc
  rw [h1] at hc
  exact Except.noConfusion hc

/-- C1 (amended): for every message `m` containing no brace character and
every non-empty system instruction `s`, `chat(m, system_message := s)` builds
exactly the two-entry sequence — system instruction first, then the user
message with content exactly `m` — and returns the stripped completion body;
messages containing braces are instead subjected to f-string template
processing. -/
theorem chat_braceFree_two_messages (c : AzureOpenAIClient)
    (send : AzureChatOpenAIConfig → List ChatMessage → String)
    (m s : String) (hm : braceFree m = true) (hs : s ≠ "") :
    AzureOpenAIClient.chat c send m (some s) =
      .ok (pyStrip (send c.llm [⟨Role.system, s⟩, ⟨Role.user, m⟩])) := by
  have hb := braceFree_chars hm
  unfold AzureOpenAIClient.chat
  rw [invokeChain_eq_of_tv (tvScan_of_braceFree m.data hb)]
  rw [show formatString m [] = .ok m from by
    unfold formatString
    rw [fmtScan_of_braceFree [] m.data hb]
    rfl]
  have hsys : sysPart (some s) = [⟨Role.system, s⟩] := by
    simp only [sysPart]
    rw [if_neg (by simpa using hs)]
  rw [hsys]
  rfl

/-- C1 witness: at `m = "Hi"`, `s = "S"` the sequence is exactly
system-then-user with user content `"Hi"`. -/
theorem chat_braceFree_two_messages_witness :
    AzureOpenAIClient.chat testClient (constSend "RESP") "Hi" (some "S") =
      .ok (pyStrip (constSend "RESP" testClient.llm
        [⟨Role.system, "S"⟩, ⟨Role.user, "Hi"⟩])) :=
  chat_braceFree_two_messages testClient (constSend "RESP") "Hi" "S" (by decide)
    (by decide)

/-- C2: when some placeholder of the template has no entry in the variables
mapping, `chat_with_template` fails with a missing-variable error naming that
placeholder, and the result is the same for every transport — no request is
sent. -/
theorem cwt_missing_variable_errors (c : AzureOpenAIClient) (t : String)
    (v : List (String × String)) (sm : Option String) (n : String) (ns : List String)
    (hvars : templateVariables t = some ns) (hmem : n ∈ ns)
    (hmiss : lookupVar v n = none) :
    ∃ missing, n ∈ missing ∧
      ∀ send, AzureOpenAIClient.chat_with_template c send t v sm =
        .error (PyError.missingVariables missing) := by
  have hmemf : n ∈ ns.filter (fun n' => (lookupVar v n').isNone) :=
    List.mem_filter.mpr ⟨hmem, by simp [hmiss]⟩
  refine ⟨ns.filter (fun n' => (lookupVar v n').isNone), hmemf, ?_⟩
  intro send
  unfold AzureOpenAIClient.chat_with_template
  rw [invokeChain_eq_of_tv hvars]
  rw [if_neg (fun hc => List.ne_nil_of_mem hmemf (List.isEmpty_iff.mp hc))]

/-- C2 witness: `chat_with_template("Hello {name}", {})` fails with a
missing-variable error naming `name`, for every transport. -/
theorem cwt_missing_variable_errors_witness :
    ∃ missing, "name" ∈ missing ∧
      ∀ send, AzureOpenAIClient.chat_with_template testClient send "Hello {name}" [] none =
        .error (PyError.missingVariables missing) :=
  cwt_missing_variable_errors testClient "Hello {name}" [] none "name" ["name"]
    (by decide) (by decide) (by decide)

/-- C4: when the variables mapping supplies every placeholder of the
template, `chat_with_template` sends a user message whose content is the
template with every placeholder substituted (`template.format(**variables)`),
after the optional system message. -/
theorem cwt_substitutes_all_variables (c : AzureOpenAIClient)
    (send : AzureChatOpenAIConfig → List ChatMessage → String)
    (t : String) (v : List (String × String)) (sm : Option String) (ns : List String)
    (hvars : templateVariables t = some ns)
    (hall : ∀ n ∈ ns, (lookupVar v n).isSome = true) :
    ∃ content, formatString t v = .ok content ∧
      AzureOpenAIClient.chat_with_template c send t v sm =
        .ok (pyStrip (send c.llm (sysPart sm ++ [⟨Role.user, content⟩]))) := by
  obtain ⟨out, hout⟩ := fmt_ok_of_tv v t.data .lit ns hvars hall
  have hfs : formatString t v = .ok (String.mk out) := by
    unfold formatString
    rw [hout]
    rfl
  refine ⟨String.mk out, hfs, ?_⟩
  unfold AzureOpenAIClient.chat_with_template
  rw [invokeChain_eq_of_tv hvars]
  have hempty : ns.filter (fun n => (lookupVar v n).isNone) = [] :=
    List.filter_eq_nil_iff.mpr (fun n hn => by
      obtain ⟨a, ha⟩ := Option.isSome_iff_exists.mp (hall n hn)
      simp [ha])
  rw [hempty]
  rw [if_pos List.isEmpty_nil]
  rw [hfs]

/-- C4 witness: `chat_with_template("Hello {name}", {"name": "Ada"})` sends
user content exactly `"Hello Ada"`. -/
theorem cwt_substitutes_all_variables_witness :
    ∃ content, formatString "Hello {name}" [("name", "Ada")] = .ok content ∧
      AzureOpenAIClient.chat_with_template testClient (constSend "R") "Hello {name}"
          [("name", "Ada")] (some "S") =
        .ok (pyStrip (constSend "R" testClient.llm
          (sysPart (some "S") ++ [⟨Role.user, content⟩]))) :=
  cwt_substitutes_all_variables testClient (constSend "R") "Hello {name}"
    [("name", "Ada")] (some "S") ["name"] (by decide) (by decide)

/-- C5: whenever `chat` or `chat_with_template` returns a value, that value
is the raw completion body with leading and trailing whitespace removed, so
it neither starts nor ends in whitespace. -/
theorem response_stripped (c : AzureOpenAIClient) (body m t : String)
    (v : List (String × String)) (sm : Option String) (r₁ r₂ : String) :
    (AzureOpenAIClient.chat c (fun _ _ => body) m sm = .ok r₁ →
      r₁ = pyStrip body ∧ hasSurroundingWS r₁ = false) ∧
    (AzureOpenAIClient.chat_with_template c (fun _ _ => body) t v sm = .ok r₂ →
      r₂ = pyStrip body ∧ hasSurroundingWS r₂ = false) := by
  constructor
  · intro h
    obtain ⟨content, hr⟩ := invokeChain_ok h
    rw [hr]
    exact ⟨rfl, pyStrip_no_ws body⟩
  · intro h
    obtain ⟨content, hr⟩ := invokeChain_ok h
    rw [hr]
    exact ⟨rfl, pyStrip_no_ws body⟩

/-- C5 witness: a raw body `"  Hi there  \n"` is returned as `"Hi there"`,
and a raw body `" B \n"` as `"B"`. -/
theorem response_stripped_witness :
    ("Hi there" = pyStrip "  Hi there  \n" ∧ hasSurroundingWS "Hi there" = false) ∧
    ("B" = pyStrip " B \n" ∧ hasSurroundingWS "B" = false) :=
  ⟨(response_stripped testClient "  Hi there  \n" "Hi" "T" [] none "Hi there" "x").1
      (by rfl),
   (response_stripped testClient " B \n" "Hi" "T" [] none "x" "B").2 (by rfl)⟩

/-- C3: construction succeeds exactly when every required key is present
with a non-empty value; otherwise it fails with a configuration error whose
message lists every omitted (absent or empty) required key. -/
theorem construct_validates_required (s : Secrets) :
    (missingKeys s = [] → ∃ cl, AzureOpenAIClient.construct s = .ok cl) ∧
    (missingKeys s ≠ [] →
      AzureOpenAIClient.construct s =
        .error (.valueError ("Missing required secrets: " ++
          pyReprStrList (missingKeys s)))) ∧
    (∀ k, k ∈ missingKeys s ↔
      k ∈ requiredKeys ∧ (s.get k = none ∨ s.get k = some "")) := by
  refine ⟨?_, ?_, ?_⟩
  · intro h
    refine ⟨constructedClient s, ?_⟩
    unfold AzureOpenAIClient.construct
    rw [if_pos (List.isEmpty_iff.mpr h)]
  · intro h
    unfold AzureOpenAIClient.construct
    rw [if_neg (fun hc => h (List.isEmpty_iff.mp hc))]
  · intro k
    unfold missingKeys
    rw [List.mem_filter]
    refine and_congr_right (fun _ => ?_)
    unfold Secrets.blankAt
    cases hg : s.get k with
    | none => simp
    | some val => simp [beq_iff_eq]

/-- C3 witness: all four keys present and non-empty succeeds; supplying only
the tenant id fails with a message listing the three omitted keys. -/
theorem construct_validates_required_witness :
    (∃ cl, AzureOpenAIClient.construct testSecrets = .ok cl) ∧
    AzureOpenAIClient.construct [("azure_tenant_id", "t")] =
      .error (.valueError ("Missing required secrets: " ++
        pyReprStrList (missingKeys [("azure_tenant_id", "t")]))) :=
  ⟨(construct_validates_required testSecrets).1 (by decide),
   (construct_validates_required [("azure_tenant_id", "t")]).2.1 (by decide)⟩

/-- C6: each optional field defaults independently — a validated
configuration missing the deployment-name entry is constructed with
deployment `"gpt-4"` (whether or not it supplies an API version), and one
missing the API-version entry with `"2024-02-15-preview"` (whether or not it
supplies a deployment name); missing required keys instead hard-fail with a
configuration error. The same per-field defaults apply on the
`create_client_from_env` path for each unset optional environment variable. -/
theorem optional_defaults (s : Secrets) (env : String → Option String) :
    (missingKeys s = [] → s.get "azure_deployment_name" = none →
      ∃ cl, AzureOpenAIClient.construct s = .ok cl ∧
        cl.llm.azure_deployment = "gpt-4") ∧
    (missingKeys s = [] → s.get "azure_api_version" = none →
      ∃ cl, AzureOpenAIClient.construct s = .ok cl ∧
        cl.llm.api_version = "2024-02-15-preview") ∧
    (missingKeys s ≠ [] →
      ∃ msg, AzureOpenAIClient.construct s = .error (.valueError msg)) ∧
    (env "AZURE_DEPLOYMENT_NAME" = none → missingKeys (envSecrets env) = [] →
      ∃ cl, create_client_from_env env = .ok cl ∧
        cl.llm.azure_deployment = "gpt-4") ∧
    (env "AZURE_API_VERSION" = none → missingKeys (envSecrets env) = [] →
      ∃ cl, create_client_from_env env = .ok cl ∧
        cl.llm.api_version = "2024-02-15-preview") := by
  refine ⟨?_, ?_, ?_, ?_, ?_⟩
  · intro h hdep
    refine ⟨constructedClient s, ?_, ?_⟩
    · unfold AzureOpenAIClient.construct
      rw [if_pos (List.isEmpty_iff.mpr h)]
    · show Secrets.getD s "azure_deployment_name" "gpt-4" = "gpt-4"
      unfold Secrets.getD
      rw [hdep]
  · intro h hapi
    refine ⟨constructedClient s, ?_, ?_⟩
    · unfold AzureOpenAIClient.construct
      rw [if_pos (List.isEmpty_iff.mpr h)]
    · show Secrets.getD s "azure_api_version" "2024-02-15-preview" = "2024-02-15-preview"
      unfold Secrets.getD
      rw [hapi]
  · intro h
    refine ⟨"Missing required secrets: " ++ pyReprStrList (missingKeys s), ?_⟩
    unfold AzureOpenAIClient.construct
    rw [if_neg (fun hc => h (List.isEmpty_iff.mp hc))]
  · intro hdep h
    have hgdep : Secrets.get (envSecrets env) "azure_deployment_name" = some "gpt-4" := by
      unfold envSecrets
      rw [List.append_assoc, List.append_assoc, List.append_assoc]
      rw [Secrets.get_optPair_ne _ _ _ _ (by decide)]
      rw [Secrets.get_optPair_ne _ _ _ _ (by decide)]
      rw [Secrets.get_optPair_ne _ _ _ _ (by decide)]
      rw [Secrets.get_optPair_ne _ _ _ _ (by decide)]
      rw [hdep]
      exact Secrets.get_cons_self _ _ _
    refine ⟨constructedClient (envSecrets env), ?_, ?_⟩
    · unfold create_client_from_env AzureOpenAIClient.construct
      rw [if_pos (List.isEmpty_iff.mpr h)]
    · show Secrets.getD (envSecrets env) "azure_deployment_name" "gpt-4" = "gpt-4"
      unfold Secrets.getD
      rw [hgdep]
  · intro hapi h
    have hgapi : Secrets.get (envSecrets env) "azure_api_version" =
        some "2024-02-15-preview" := by
      unfold envSecrets
      rw [List.append_assoc, List.append_assoc, List.append_assoc]
      rw [Secrets.get_optPair_ne _ _ _ _ (by decide)]
      rw [Secrets.get_optPair_ne _ _ _ _ (by decide)]
      rw [Secrets.get_optPair_ne _ _ _ _ (by decide)]
      rw [Secrets.get_optPair_ne _ _ _ _ (by decide)]
      rw [Secrets.get_cons_ne _ _ _ _ (by decide)]
      rw [hapi]
      exact Secrets.get_cons_self _ _ _
    refine ⟨constructedClient (envSecrets env), ?_, ?_⟩
    · unfold create_client_from_env AzureOpenAIClient.construct
      rw [if_pos (List.isEmpty_iff.mpr h)]
    · show Secrets.getD (envSecrets env) "azure_api_version" "2024-02-15-preview" =
        "2024-02-15-preview"
      unfold Secrets.getD
      rw [hgapi]

/-- C6 witness: the per-field defaults at mixed concrete configurations — a
mapping supplying only the optional API version still gets deployment
`"gpt-4"`, a mapping supplying only the optional deployment name still gets
API version `"2024-02-15-preview"`, supplying only a required key hard-fails,
and an environment with just the four required variables set defaults both
optional fields. -/
theorem optional_defaults_witness :
    (∃ cl, AzureOpenAIClient.construct (testSecrets ++ [("azure_api_version", "V")]) =
        .ok cl ∧ cl.llm.azure_deployment = "gpt-4") ∧
    (∃ cl, AzureOpenAIClient.construct (testSecrets ++ [("azure_deployment_name", "D")]) =
        .ok cl ∧ cl.llm.api_version = "2024-02-15-preview") ∧
    (∃ msg, AzureOpenAIClient.construct [("azure_tenant_id", "t")] =
        .error (.valueError msg)) ∧
    (∃ cl, create_client_from_env testEnv = .ok cl ∧
      cl.llm.azure_deployment = "gpt-4") ∧
    (∃ cl, create_client_from_env testEnv = .ok cl ∧
      cl.llm.api_version = "2024-02-15-preview") :=
  ⟨(optional_defaults (testSecrets ++ [("azure_api_version", "V")]) testEnv).1
      (by decide) (by decide),
   (optional_defaults (testSecrets ++ [("azure_deployment_name", "D")]) testEnv).2.1
      (by decide) (by decide),
   (optional_defaults [("azure_tenant_id", "t")] testEnv).2.2.1 (by decide),
   (optional_defaults testSecrets testEnv).2.2.2.1 (by decide) (by decide),
   (optional_defaults testSecrets testEnv).2.2.2.2 (by decide) (by decide)⟩

/-- C7: every successfully constructed client has temperature exactly `0.1`
and maximum output tokens exactly `4000`, whatever the configuration. -/
theorem llm_params_fixed (s : Secrets) (cl : AzureOpenAIClient)
    (h : AzureOpenAIClient.construct s = .ok cl) :
    cl.llm.temperature = 1/10 ∧ cl.llm.max_tokens = 4000 := by
  unfold AzureOpenAIClient.construct at h
  by_cases he : (missingKeys s).isEmpty = true
  · rw [if_pos he] at h
    injection h with h2
    rw [← h2]
    exact ⟨rfl, rfl⟩
  · rw [if_neg he] at h
    exact Except.noConfusion h

/-- C7 witness: the fixed parameters at a concrete configuration. -/
theorem llm_params_fixed_witness :
    testClient.llm.temperature = 1/10 ∧ testClient.llm.max_tokens = 4000 :=
  llm_params_fixed testSecrets testClient (by rfl)

/-- C8: `chat` and `chat_with_template` leave the client object (secrets,
credential, completion-client configuration) unchanged whether they return
or fail, and a second call after a first one behaves exactly as the second
call alone on the original client. -/
theorem calls_preserve_client_state (c : AzureOpenAIClient)
    (send send₂ : AzureChatOpenAIConfig → List ChatMessage → String)
    (m t : String) (v : List (String × String)) (sm sm₂ : Option String) :
    ((chatM send m sm).run c).2 = c ∧
    ((chatWithTemplateM send₂ t v sm₂).run c).2 = c ∧
    ((do _ ← chatM send m sm; chatWithTemplateM send₂ t v sm₂).run c).2 = c ∧
    ((do _ ← chatM send m sm; chatWithTemplateM send₂ t v sm₂).run c).1 =
      ((chatWithTemplateM send₂ t v sm₂).run c).1 :=
  ⟨rfl, rfl, rfl, rfl⟩

/-- C9: an empty-string system message is falsy in Python, so `chat` and
`chat_with_template` build no system entry and behave exactly as with no
system message at all. -/
theorem empty_system_message_like_none (c : AzureOpenAIClient)
    (send : AzureChatOpenAIConfig → List ChatMessage → String)
    (m t : String) (v : List (String × String)) :
    sysPart (some "") = [] ∧
    AzureOpenAIClient.chat c send m (some "") =
      AzureOpenAIClient.chat c send m none ∧
    AzureOpenAIClient.chat_with_template c send t v (some "") =
      AzureOpenAIClient.chat_with_template c send t v none :=
  ⟨rfl, rfl, rfl⟩

/-- C10: the configuration-error content is a deterministic function of
which required keys are blank, reported in the fixed order of the
`required_keys` list, independent of the order of the supplied mapping. -/
theorem validation_error_order_deterministic (s s₂ : Secrets) :
    (missingKeys s).Sublist requiredKeys ∧
    ((∀ k ∈ requiredKeys, s.blankAt k = s₂.blankAt k) →
      errorOf (AzureOpenAIClient.construct s) =
        errorOf (AzureOpenAIClient.construct s₂)) := by
  constructor
  · exact List.filter_sublist requiredKeys
  · intro h
    have hm : missingKeys s = missingKeys s₂ := List.filter_congr h
    unfold AzureOpenAIClient.construct
    rw [hm]
    by_cases he : (missingKeys s₂).isEmpty = true
    · rw [if_pos he, if_pos he]
      rfl
    · rw [if_neg he, if_neg he]

/-- C10 witness: two mappings with the same blank required keys but
different entry order produce the same error, and the missing keys appear in
required-key order. -/
theorem validation_error_order_deterministic_witness :
    (missingKeys [("azure_endpoint", "e"), ("azure_tenant_id", "t")]).Sublist
      requiredKeys ∧
    errorOf (AzureOpenAIClient.construct
        [("azure_endpoint", "e"), ("azure_tenant_id", "t")]) =
      errorOf (AzureOpenAIClient.construct
        [("azure_tenant_id", "t"), ("other", "x"), ("azure_endpoint", "e")]) :=
  ⟨(validation_error_order_deterministic
      [("azure_endpoint", "e"), ("azure_tenant_id", "t")]
      [("azure_tenant_id", "t"), ("other", "x"), ("azure_endpoint", "e")]).1,
   (validation_error_order_deterministic
      [("azure_endpoint", "e"), ("azure_tenant_id", "t")]
      [("azure_tenant_id", "t"), ("other", "x"), ("azure_endpoint", "e")]).2
    (by decide)⟩
